import Mathlib

/-!
Shallow embedding of the raffle backend's core business services
(ticket allocation, payment approval, participation creation, draw
resolution, currency conversion, expiration reaper) and proofs of the
specification's claims about them.

Database rows are modelled as Lean structures, querysets as lists,
`Decimal` as `Rat`, datetimes as `Int` (seconds), and exceptions as
`Except` error values.  An `Except.error` result models a raised
exception aborting the enclosing `transaction.atomic` block, i.e. no
state change at all.
-/

/-- One raffle row (`raffles.models.Raffle`).  Only the fields the
business services read are modelled; contact-free presentation fields
(title, slug, images, dates) are omitted since no service logic depends
on them.  `status` and `currency` are the literal strings the source
compares against. -/
structure Raffle where
  id : Nat
  total_tickets : Nat
  ticket_price : Rat
  currency : String
  status : String
  is_active : Bool
deriving DecidableEq

/-- One participation row (`participants.models.Participation`).  The
contact fields and their SHA-256 hashes are omitted: the services under
verification never branch on them. -/
structure Participation where
  id : Nat
  raffle_id : Nat
  ticket_count : Nat
deriving DecidableEq

/-- One ticket row (`tickets.models.Ticket`). -/
structure Ticket where
  raffle_id : Nat
  participation_id : Nat
  ticket_number : Nat
deriving DecidableEq

/-- One payment row (`payments.models.Payment`), restricted to the
fields the services read or write.  `status` holds the literal strings
"PENDING" / "APPROVED" / "REJECTED" used by the source. -/
structure Payment where
  participation_id : Nat
  status : String
  verified_by : Option Nat
  verified_at : Option Int
deriving DecidableEq

/-- Errors raised by `tickets.services`.  Both sites raise `ValueError`
in the source; the spec names them `AlreadyAssignedError` and
`InsufficientTicketsError`, one per raise site. -/
inductive TicketError where
  | alreadyAssigned
  | insufficientTickets
deriving DecidableEq

/-- `participation.tickets.exists()`: does any ticket belong to this
participation? -/
def has_tickets (tickets : List Ticket) (part : Participation) : Bool :=
  tickets.any (fun t => t.participation_id == part.id)

/-- `set(Ticket.objects.filter(raffle=raffle).values_list("ticket_number"))`:
the ticket numbers already assigned in the raffle. -/
def existing_ticket_numbers (tickets : List Ticket) (raffle : Raffle) : List Nat :=
  (tickets.filter (fun t => t.raffle_id == raffle.id)).map (fun t => t.ticket_number)

/-- `[n for n in range(0, raffle.total_tickets) if n not in existing]`. -/
def available_numbers (tickets : List Ticket) (raffle : Raffle) : List Nat :=
  (List.range raffle.total_tickets).filter
    (fun n => !((existing_ticket_numbers tickets raffle).contains n))

/-- Specification of `random.sample(population, k)` on a duplicate-free
population: it returns `k` pairwise-distinct elements of the population.
The allocator is verified for every sampler satisfying this, which
covers every outcome of the random draw. -/
def SampleSpec (sample : List Nat → Nat → List Nat) : Prop :=
  ∀ l k, l.Nodup → k ≤ l.length →
    (sample l k).length = k ∧ (sample l k).Nodup ∧ ∀ x ∈ sample l k, x ∈ l

/-- A deterministic sampler (take the first `k` available numbers),
used to instantiate theorems at concrete inputs. -/
def sampleTake : List Nat → Nat → List Nat :=
  fun l k => l.take k

/-- `tickets.services.assign_tickets_to_participation`, parametrised by
the sampler standing for `random.sample`.  Returns the list of tickets
created by `bulk_create`; an error models the raised `ValueError`
aborting the transaction with no ticket created. -/
def assign_tickets_to_participation (sample : List Nat → Nat → List Nat)
    (tickets : List Ticket) (part : Participation) (raffle : Raffle) :
    Except TicketError (List Ticket) :=
  if has_tickets tickets part then
    .error .alreadyAssigned
  else
    let available := available_numbers tickets raffle
    if available.length < part.ticket_count then
      .error .insufficientTickets
    else
      let chosen := sample available part.ticket_count
      .ok (chosen.map (fun n =>
        { raffle_id := raffle.id, participation_id := part.id, ticket_number := n }))

/-- `payments.payment.services_sync.approve_payment`, parametrised by
the sampler for the underlying ticket allocation and by the clock value
`now` standing for `timezone.now()`.  Returns the ticket table after the
call together with the updated payment row; an error models the
propagated `ValueError` from the allocator rolling back the whole
transaction. -/
def approve_payment (sample : List Nat → Nat → List Nat) (tickets : List Ticket)
    (raffle : Raffle) (part : Participation) (payment : Payment)
    (verified_by : Nat) (now : Int) : Except TicketError (List Ticket × Payment) :=
  if has_tickets tickets part then
    .ok (tickets,
      { payment with
        verified_by := some verified_by
        verified_at := some now
        status := "APPROVED" })
  else
    match assign_tickets_to_participation sample tickets part raffle with
    | .error e => .error e
    | .ok created =>
      .ok (tickets ++ created,
        { payment with
          status := "APPROVED"
          verified_by := some verified_by
          verified_at := some now })

/-- Errors raised by `participants.services_sync`. -/
inductive ParticipationError where
  | raffleNotAvailable
  | notEnoughTickets
deriving DecidableEq

/-- `participants.services_sync.get_available_tickets_count_sync`:
capacity minus the ticket counts reserved by participations whose
payment is not REJECTED (participations without a payment count as
reserved), clamped at zero; zero when the raffle is not in progress. -/
def unavailable_count (parts : List Participation) (payments : List Payment)
    (raffle : Raffle) : Nat :=
  ((parts.filter (fun p => p.raffle_id == raffle.id &&
      !(payments.any (fun pay =>
        pay.participation_id == p.id && pay.status == "REJECTED")))).map
    (fun p => p.ticket_count)).sum

def get_available_tickets_count_sync (raffle : Raffle) (parts : List Participation)
    (payments : List Payment) : Int :=
  if raffle.status != "IN_PROGRESS" then 0
  else max 0 ((raffle.total_tickets : Int) - (unavailable_count parts payments raffle : Int))

/-- `participants.services_sync.create_participation_sync`.  The contact
fields are omitted (they only get hashed and stored); `new_id` is the
primary key the database would assign to the created row.  Returns the
participation table after the call. -/
def create_participation_sync (raffle : Raffle) (parts : List Participation)
    (payments : List Payment) (new_id : Nat) (ticket_count : Nat) :
    Except ParticipationError (List Participation) :=
  if !raffle.is_active || raffle.status != "IN_PROGRESS" then
    .error .raffleNotAvailable
  else if (ticket_count : Int) > get_available_tickets_count_sync raffle parts payments then
    .error .notEnoughTickets
  else
    .ok (parts ++ [{ id := new_id, raffle_id := raffle.id, ticket_count := ticket_count }])

/-- One prize row (`raffles.models.Prize`), restricted to the fields the
draw services read or write. -/
structure Prize where
  id : Nat
  raffle_id : Nat
  winner_participation : Option Nat
  winner_ticket_number : Option Nat
  delivered_at : Option Int
deriving DecidableEq

/-- `Prize.is_delivered` property. -/
def Prize.is_delivered (p : Prize) : Bool :=
  p.delivered_at.isSome

/-- One draw row (`raffles.models.Draw`).  `status` holds the literal
strings "SCHEDULED" / "COMPLETED" / "ROLLED_OVER" the source assigns. -/
structure Draw where
  prize_id : Nat
  lottery_name : String
  draw_time : Int
  winning_number : Option Nat
  status : String
deriving DecidableEq

/-- `timedelta(days=1)`, with datetimes measured in seconds. -/
def oneDay : Int := 86400

/-- Exceptions raised by `raffles.service_sync`. -/
inductive RaffleServiceError where
  | drawProcessingError
  | revokePrizeError
deriving DecidableEq

/-- The writes performed by a successful `process_draw_result` call: the
updated (saved) draw and prize rows, and the newly created draw on the
rollover path. -/
structure DrawOutcome where
  prize : Prize
  draw : Draw
  new_draw : Option Draw
deriving DecidableEq

/-- `raffles.service_sync.process_draw_result`.  `prize` is `draw.prize`
and `tickets` the ticket table; `Ticket.objects.get` under the
`(raffle, ticket_number)` unique constraint is modelled by `find?`.
Note the source assigns `draw.winning_number = winning_number` before
branching, so both the COMPLETED and the ROLLED_OVER `save()` persist
it. -/
def process_draw_result (tickets : List Ticket) (draw : Draw) (prize : Prize)
    (winning_number : Nat) : Except RaffleServiceError DrawOutcome :=
  if draw.status != "SCHEDULED" then
    .error .drawProcessingError
  else if prize.winner_participation.isSome then
    .error .drawProcessingError
  else
    let draw := { draw with winning_number := some winning_number }
    match tickets.find? (fun t =>
        t.raffle_id == prize.raffle_id && t.ticket_number == winning_number) with
    | some winning_ticket =>
      .ok
        { prize :=
            { prize with
              winner_participation := some winning_ticket.participation_id
              winner_ticket_number := some winning_number }
          draw := { draw with status := "COMPLETED" }
          new_draw := none }
    | none =>
      .ok
        { prize := prize
          draw := { draw with status := "ROLLED_OVER" }
          new_draw := some
            { prize_id := prize.id
              lottery_name := draw.lottery_name
              draw_time := draw.draw_time + oneDay
              winning_number := none
              status := "SCHEDULED" } }

/-- The writes performed by a successful `revoke_prize_assignment` call:
the cleared prize, the completed draw re-saved as rolled over, and the
newly created scheduled draw. -/
structure RevokeOutcome where
  prize : Prize
  rolled_draw : Draw
  new_draw : Draw
deriving DecidableEq

/-- `raffles.service_sync.revoke_prize_assignment`; `draws` is the draw
table and `now` stands for `timezone.now()`.
`order_by("-draw_time").first()` on the COMPLETED draws of the prize is
modelled by `argmax` on `draw_time`. -/
def revoke_prize_assignment (prize : Prize) (draws : List Draw) (now : Int) :
    Except RaffleServiceError RevokeOutcome :=
  if prize.winner_participation.isNone then
    .error .revokePrizeError
  else if prize.is_delivered then
    .error .revokePrizeError
  else
    match (draws.filter (fun d =>
        d.prize_id == prize.id && d.status == "COMPLETED")).argmax (fun d => d.draw_time) with
    | none => .error .revokePrizeError
    | some completed_draw =>
      .ok
        { prize :=
            { prize with
              winner_participation := none
              winner_ticket_number := none }
          rolled_draw := { completed_draw with status := "ROLLED_OVER" }
          new_draw :=
            { prize_id := prize.id
              lottery_name := completed_draw.lottery_name
              draw_time := now + oneDay
              winning_number := none
              status := "SCHEDULED" } }

/-- One exchange-rate row (`currencies.models.ExchangeRate`); dates are
modelled as `Int` day numbers (the `date` column is unique). -/
structure ExchangeRate where
  date : Int
  rate : Rat
deriving DecidableEq

/-- `currencies.get_exchange_rate_for_date`: the most recent rate with
`date ≤ target_date` (`filter(date__lte=...).order_by("-date").first()`,
modelled by `argmax` on the date — the `date` column is unique). -/
def get_exchange_rate_for_date (rates : List ExchangeRate) (target_date : Int) :
    Option ExchangeRate :=
  (rates.filter (fun r => decide (r.date ≤ target_date))).argmax (fun r => r.date)

/-- Errors raised by `payments.payment.exceptions` during amount
calculation. -/
inductive PaymentError where
  | invalidPaymentMethod
  | exchangeRateUnavailable
  | paymentCalculation
deriving DecidableEq

/-- `Decimal.quantize(Decimal("0.01"), rounding=ROUND_HALF_UP)`: round
to two decimal places, ties away from zero.  (`Decimal` arithmetic is
modelled as exact rational arithmetic.) -/
def roundHalfUp2 (q : Rat) : Rat :=
  if q < 0 then -((⌊-q * 100 + 1 / 2⌋ : Rat) / 100)
  else (⌊q * 100 + 1 / 2⌋ : Rat) / 100

/-- `payments.payment.services_sync.calculate_payment_amount`.  The
raffle fields and the payment method's currency are passed directly;
`method_available` is the result of the
`raffle.available_payment_methods.filter(...).exists()` query.  Returns
`(amount_to_pay, payment_currency, exchange_rate | none)`. -/
def calculate_payment_amount (raffle : Raffle) (ticket_count : Nat)
    (method_currency : String) (method_available : Bool)
    (rates : List ExchangeRate) (payment_date : Int) :
    Except PaymentError (Rat × String × Option Rat) :=
  if !method_available then
    .error .invalidPaymentMethod
  else
    let base_amount := raffle.ticket_price * (ticket_count : Rat)
    if raffle.currency == method_currency then
      .ok (base_amount, method_currency, none)
    else
      match get_exchange_rate_for_date rates payment_date with
      | none => .error .exchangeRateUnavailable
      | some rate_obj =>
        if raffle.currency == "USD" && method_currency == "VEF" then
          .ok (roundHalfUp2 (base_amount * rate_obj.rate), method_currency, some rate_obj.rate)
        else if raffle.currency == "VEF" && method_currency == "USD" then
          .ok (roundHalfUp2 (base_amount / rate_obj.rate), method_currency, some rate_obj.rate)
        else
          .error .paymentCalculation

/-- `participants.tasks._cleanup_expired_participation_async_logic`:
the expiration reaper body.  Total — every exception path in the source
is caught (DoesNotExist explicitly, everything else by the outer
handler) — and returns the participation table after the call. -/
def cleanup_expired_participation (parts : List Participation)
    (payments : List Payment) (participation_id : Nat) : List Participation :=
  if payments.any (fun pay => pay.participation_id == participation_id) then
    parts
  else
    match parts.find? (fun p => p.id == participation_id) with
    | some _ => parts.filter (fun p => !(p.id == participation_id))
    | none => parts

/-- A concrete scheduled draw used to instantiate theorems. -/
def drawEx : Draw :=
  { prize_id := 0, lottery_name := "L", draw_time := 0, winning_number := none,
    status := "SCHEDULED" }

/-- A concrete unassigned prize used to instantiate theorems. -/
def prizeEx : Prize :=
  { id := 0, raffle_id := 0, winner_participation := none,
    winner_ticket_number := none, delivered_at := none }

/-- A concrete ticket used to instantiate theorems. -/
def ticketEx : Ticket :=
  { raffle_id := 0, participation_id := 3, ticket_number := 2 }

/-- The outcome `process_draw_result` computes on `drawEx`/`prizeEx`
with winning number 5 and no tickets (the rollover path). -/
def rolloverOutcomeEx : DrawOutcome :=
  { prize := prizeEx
    draw := { drawEx with winning_number := some 5, status := "ROLLED_OVER" }
    new_draw := some
      { prize_id := 0
        lottery_name := "L"
        draw_time := 86400
        winning_number := none
        status := "SCHEDULED" } }

theorem sampleSpec_sampleTake : SampleSpec sampleTake := by
  intro l k hnd hk
  refine ⟨?_, ?_, ?_⟩
  · simpa [sampleTake] using hk
  · exact hnd.sublist (List.take_sublist k l)
  · intro x hx
    exact List.take_subset k l hx

theorem available_numbers_nodup (tickets : List Ticket) (raffle : Raffle) :
    (available_numbers tickets raffle).Nodup :=
  (List.nodup_range _).filter _

theorem mem_available_numbers {tickets : List Ticket} {raffle : Raffle} {n : Nat} :
    n ∈ available_numbers tickets raffle ↔
      n < raffle.total_tickets ∧ n ∉ existing_ticket_numbers tickets raffle := by
  simp [available_numbers, List.mem_filter, List.mem_range]

/-- Claim C1: for a participation with no existing tickets,
`assign_tickets_to_participation` creates exactly `ticket_count` tickets
with pairwise-distinct numbers, all in `[0, total_tickets)` and disjoint
from the numbers already assigned in the raffle; it fails with
`InsufficientTicketsError` (creating nothing) when fewer numbers are
available than requested, and with `AlreadyAssignedError` (creating
nothing) when the participation already has tickets. -/
theorem C1_assign_tickets_correct (sample : List Nat → Nat → List Nat)
    (hs : SampleSpec sample) (tickets : List Ticket) (part : Participation)
    (raffle : Raffle) :
    (has_tickets tickets part = true →
      assign_tickets_to_participation sample tickets part raffle =
        .error .alreadyAssigned) ∧
    (has_tickets tickets part = false →
      (available_numbers tickets raffle).length < part.ticket_count →
      assign_tickets_to_participation sample tickets part raffle =
        .error .insufficientTickets) ∧
    (has_tickets tickets part = false →
      part.ticket_count ≤ (available_numbers tickets raffle).length →
      ∃ created,
        assign_tickets_to_participation sample tickets part raffle = .ok created ∧
        created.length = part.ticket_count ∧
        (created.map (fun t => t.ticket_number)).Nodup ∧
        ∀ t ∈ created,
          t.raffle_id = raffle.id ∧
          t.participation_id = part.id ∧
          t.ticket_number < raffle.total_tickets ∧
          t.ticket_number ∉ existing_ticket_numbers tickets raffle) := by
  refine ⟨?_, ?_, ?_⟩
  · intro h
    simp [assign_tickets_to_participation, h]
  · intro h hlt
    simp [assign_tickets_to_participation, h, hlt]
  · intro h hle
    obtain ⟨hlen, hnd, hmem⟩ :=
      hs (available_numbers tickets raffle) part.ticket_count
        (available_numbers_nodup tickets raffle) hle
    refine ⟨(sample (available_numbers tickets raffle) part.ticket_count).map
      (fun n => (⟨raffle.id, part.id, n⟩ : Ticket)), ?_, ?_, ?_, ?_⟩
    · simp [assign_tickets_to_participation, h, Nat.not_lt.mpr hle]
    · simpa using hlen
    · simpa [List.map_map, Function.comp_def] using hnd
    · intro t ht
      simp only [List.mem_map] at ht
      obtain ⟨n, hn, rfl⟩ := ht
      have := (mem_available_numbers).mp (hmem n hn)
      exact ⟨rfl, rfl, this.1, this.2⟩

/-- Witness for C1 at concrete inputs: a raffle of 2 tickets with both
numbers already taken cannot serve a fresh request for one ticket. -/
theorem C1_witness :
    assign_tickets_to_participation sampleTake
      [{ raffle_id := 0, participation_id := 1, ticket_number := 0 },
       { raffle_id := 0, participation_id := 1, ticket_number := 1 }]
      { id := 2, raffle_id := 0, ticket_count := 1 }
      { id := 0, total_tickets := 2, ticket_price := 10, currency := "USD",
        status := "IN_PROGRESS", is_active := true } =
      .error .insufficientTickets :=
  (C1_assign_tickets_correct sampleTake sampleSpec_sampleTake _ _ _).2.1
    (by decide) (by decide)

theorem approve_payment_assign_ok {sample : List Nat → Nat → List Nat}
    {tickets created : List Ticket} {part : Participation} {raffle : Raffle}
    (h : has_tickets tickets part = false)
    (hok : assign_tickets_to_participation sample tickets part raffle = .ok created) :
    ¬ (available_numbers tickets raffle).length < part.ticket_count ∧
      created = (sample (available_numbers tickets raffle) part.ticket_count).map
        (fun n => (⟨raffle.id, part.id, n⟩ : Ticket)) := by
  by_cases hlt : (available_numbers tickets raffle).length < part.ticket_count
  · simp [assign_tickets_to_participation, h, hlt] at hok
  · simp [assign_tickets_to_participation, h, hlt] at hok
    exact ⟨hlt, hok.symm⟩

/-- Claim C2: `approve_payment` is idempotent.  When the participation
already has tickets the call only writes the audit fields and the
APPROVED status, creating no ticket and raising no error; consequently
a second call on the same payment leaves the ticket table exactly as
the first call left it. -/
theorem C2_approve_payment_idempotent (sample : List Nat → Nat → List Nat)
    (hs : SampleSpec sample) (tickets : List Ticket) (raffle : Raffle)
    (part : Participation) (payment : Payment) (u1 u2 : Nat) (t1 t2 : Int) :
    (has_tickets tickets part = true →
      approve_payment sample tickets raffle part payment u1 t1 =
        .ok (tickets,
          { payment with
            verified_by := some u1
            verified_at := some t1
            status := "APPROVED" })) ∧
    (∀ tickets1 pay1,
      approve_payment sample tickets raffle part payment u1 t1 = .ok (tickets1, pay1) →
      approve_payment sample tickets1 raffle part pay1 u2 t2 =
        .ok (tickets1,
          { pay1 with
            verified_by := some u2
            verified_at := some t2
            status := "APPROVED" })) := by
  constructor
  · intro h
    simp [approve_payment, h]
  · intro tickets1 pay1 hok
    by_cases h : has_tickets tickets part
    · simp only [approve_payment, h, if_true, Except.ok.injEq, Prod.mk.injEq] at hok
      obtain ⟨rfl, rfl⟩ := hok
      simp [approve_payment, h]
    · rw [Bool.not_eq_true] at h
      simp only [approve_payment, h, Bool.false_eq_true, if_false] at hok
      cases hassign : assign_tickets_to_participation sample tickets part raffle with
      | error e => rw [hassign] at hok; simp at hok
      | ok created =>
        rw [hassign] at hok
        simp only [Except.ok.injEq, Prod.mk.injEq] at hok
        obtain ⟨rfl, rfl⟩ := hok
        obtain ⟨hnlt, rfl⟩ := approve_payment_assign_ok h hassign
        have hle : part.ticket_count ≤ (available_numbers tickets raffle).length :=
          Nat.le_of_not_lt hnlt
        obtain ⟨hlen, -, -⟩ :=
          hs (available_numbers tickets raffle) part.ticket_count
            (available_numbers_nodup tickets raffle) hle
        by_cases hzero : part.ticket_count = 0
        · have hnil : sample (available_numbers tickets raffle) part.ticket_count = [] :=
            List.length_eq_zero.mp (by rw [hlen, hzero])
          simp [approve_payment, assign_tickets_to_participation, h, hnil, hnlt]
        · have hne : (sample (available_numbers tickets raffle) part.ticket_count).map
              (fun n => (⟨raffle.id, part.id, n⟩ : Ticket)) ≠ [] := by
            intro hcontra
            apply hzero
            have := congrArg List.length hcontra
            simpa [hlen] using this
          have h2 : has_tickets (tickets ++
              (sample (available_numbers tickets raffle) part.ticket_count).map
                (fun n => (⟨raffle.id, part.id, n⟩ : Ticket))) part = true := by
            rcases List.exists_mem_of_ne_nil _ hne with ⟨t, htmem⟩
            rcases List.mem_map.mp htmem with ⟨n, -, rfl⟩
            simp only [has_tickets, List.any_eq_true]
            exact ⟨_, List.mem_append_right _ htmem, by simp⟩
          simp [approve_payment, h2]

/-- Witness for C2 at a concrete input: a participation that already
owns ticket 0 of a two-ticket raffle gets only the audit-field update. -/
theorem C2_witness :
    approve_payment sampleTake
      [{ raffle_id := 0, participation_id := 1, ticket_number := 0 }]
      { id := 0, total_tickets := 2, ticket_price := 10, currency := "USD",
        status := "IN_PROGRESS", is_active := true }
      { id := 1, raffle_id := 0, ticket_count := 1 }
      { participation_id := 1, status := "PENDING", verified_by := none,
        verified_at := none }
      7 100 =
      .ok ([{ raffle_id := 0, participation_id := 1, ticket_number := 0 }],
        { participation_id := 1, status := "APPROVED", verified_by := some 7,
          verified_at := some 100 }) :=
  (C2_approve_payment_idempotent sampleTake sampleSpec_sampleTake _ _ _ _ 7 0 100 0).1
    (by decide)

/-- Counterexample to claim C10: a PENDING payment whose participation
has no tickets, on a raffle with zero total tickets, makes
`approve_payment` raise the allocator's error instead of ending with
status APPROVED — so the call does not "always end with status set to
APPROVED"; only the absence of a status-based precondition is true. -/
theorem C10_counterexample :
    approve_payment sampleTake []
      { id := 0, total_tickets := 0, ticket_price := 10, currency := "USD",
        status := "IN_PROGRESS", is_active := true }
      { id := 1, raffle_id := 0, ticket_count := 1 }
      { participation_id := 1, status := "PENDING", verified_by := none,
        verified_at := none }
      7 0 = .error .insufficientTickets := rfl

/-- Claim C10 (amended): `approve_payment` performs no check on the
payment's status field — its result is identical for every input status
(PENDING, APPROVED or REJECTED), and it never raises a status-based
error; whenever ticket assignment is possible (the participation
already has tickets, or enough numbers are available) it succeeds and
ends with status APPROVED and the audit fields set.  It can still fail
with the allocator's error when assignment is impossible. -/
theorem C10_no_status_precondition (sample : List Nat → Nat → List Nat)
    (tickets : List Ticket) (raffle : Raffle) (part : Participation)
    (payment : Payment) (u : Nat) (now : Int) :
    (∀ s1 s2 : String,
      approve_payment sample tickets raffle part
          { payment with status := s1 } u now =
        approve_payment sample tickets raffle part
          { payment with status := s2 } u now) ∧
    (has_tickets tickets part = true ∨
        part.ticket_count ≤ (available_numbers tickets raffle).length →
      ∃ tickets2,
        approve_payment sample tickets raffle part payment u now =
          .ok (tickets2,
            { payment with
              verified_by := some u
              verified_at := some now
              status := "APPROVED" })) := by
  constructor
  · intro s1 s2
    by_cases h : has_tickets tickets part
    · simp [approve_payment, h]
    · rw [Bool.not_eq_true] at h
      simp only [approve_payment, h, Bool.false_eq_true, if_false]
  · intro hcond
    by_cases h : has_tickets tickets part
    · exact ⟨tickets, by simp [approve_payment, h]⟩
    · rw [Bool.not_eq_true] at h
      have hle : part.ticket_count ≤ (available_numbers tickets raffle).length := by
        rcases hcond with hcond | hcond
        · rw [h] at hcond; exact absurd hcond (by simp)
        · exact hcond
      refine ⟨tickets ++ (sample (available_numbers tickets raffle)
        part.ticket_count).map (fun n => (⟨raffle.id, part.id, n⟩ : Ticket)), ?_⟩
      simp [approve_payment, assign_tickets_to_participation, h, Nat.not_lt.mpr hle]

/-- Witness for the amended C10 at concrete inputs: the result is the
same for a REJECTED and a PENDING input status, and the call on a
participation with room to allocate succeeds. -/
theorem C10_witness :
    (approve_payment sampleTake []
        { id := 0, total_tickets := 2, ticket_price := 10, currency := "USD",
          status := "IN_PROGRESS", is_active := true }
        { id := 1, raffle_id := 0, ticket_count := 1 }
        { participation_id := 1, status := "REJECTED", verified_by := none,
          verified_at := none }
        7 0 =
      approve_payment sampleTake []
        { id := 0, total_tickets := 2, ticket_price := 10, currency := "USD",
          status := "IN_PROGRESS", is_active := true }
        { id := 1, raffle_id := 0, ticket_count := 1 }
        { participation_id := 1, status := "PENDING", verified_by := none,
          verified_at := none }
        7 0) ∧
    (approve_payment sampleTake []
        { id := 0, total_tickets := 2, ticket_price := 10, currency := "USD",
          status := "IN_PROGRESS", is_active := true }
        { id := 1, raffle_id := 0, ticket_count := 1 }
        { participation_id := 1, status := "PENDING", verified_by := none,
          verified_at := none }
        7 0).isOk = true := by
  have hthm := C10_no_status_precondition sampleTake []
    { id := 0, total_tickets := 2, ticket_price := 10, currency := "USD",
      status := "IN_PROGRESS", is_active := true }
    { id := 1, raffle_id := 0, ticket_count := 1 }
    { participation_id := 1, status := "PENDING", verified_by := none,
      verified_at := none }
    7 0
  constructor
  · exact hthm.1 "REJECTED" "PENDING"
  · obtain ⟨tickets2, hok⟩ := hthm.2 (Or.inr (by decide))
    rw [hok]
    rfl

/-- Claim C3: `create_participation_sync` fails with
`NotEnoughTicketsError` whenever the requested count exceeds capacity
minus the tickets reserved by non-REJECTED participations, and on
success the invariant "reserved ≤ total_tickets" is preserved
(`new_id` being a fresh primary key, no existing payment refers to
it). -/
theorem C3_no_oversell (raffle : Raffle) (parts : List Participation)
    (payments : List Payment) (new_id ticket_count : Nat)
    (hinv : unavailable_count parts payments raffle ≤ raffle.total_tickets) :
    (raffle.is_active = true → raffle.status = "IN_PROGRESS" →
      (ticket_count : Int) >
          (raffle.total_tickets : Int) - (unavailable_count parts payments raffle : Int) →
      create_participation_sync raffle parts payments new_id ticket_count =
        .error .notEnoughTickets) ∧
    (∀ parts',
      create_participation_sync raffle parts payments new_id ticket_count = .ok parts' →
      (∀ pay ∈ payments, pay.participation_id ≠ new_id) →
      unavailable_count parts' payments raffle ≤ raffle.total_tickets) := by
  constructor
  · intro hA hP hGt
    have hcond : (ticket_count : Int) > get_available_tickets_count_sync raffle parts payments := by
      rw [get_available_tickets_count_sync, hP]
      simp only [bne_self_eq_false, Bool.false_eq_true, if_false]
      omega
    simp [create_participation_sync, hA, hP, hcond]
  · intro parts' hok hfresh
    rw [create_participation_sync] at hok
    by_cases h1 : (!raffle.is_active || raffle.status != "IN_PROGRESS") = true
    · rw [if_pos h1] at hok
      exact absurd hok (by simp)
    · rw [if_neg h1] at hok
      by_cases h2 : (ticket_count : Int) > get_available_tickets_count_sync raffle parts payments
      · rw [if_pos h2] at hok
        exact absurd hok (by simp)
      · rw [if_neg h2] at hok
        simp only [Except.ok.injEq] at hok
        subst hok
        have hany : payments.any
            (fun pay => pay.participation_id == new_id && pay.status == "REJECTED") = false := by
          simp only [List.any_eq_false]
          intro pay hpay
          have hne := hfresh pay hpay
          simp [hne]
        have hsplit :
            unavailable_count
              (parts ++ [{ id := new_id, raffle_id := raffle.id, ticket_count := ticket_count }])
              payments raffle =
            unavailable_count parts payments raffle + ticket_count := by
          simp [unavailable_count, List.filter_append, hany]
        rw [hsplit]
        rw [get_available_tickets_count_sync] at h2
        split_ifs at h2 with hstat
        · omega
        · omega

/-- Witness for C3 at concrete inputs: with 2 of 2 tickets reserved by a
pending participation, requesting 1 more fails. -/
theorem C3_witness :
    create_participation_sync
      { id := 0, total_tickets := 2, ticket_price := 10, currency := "USD",
        status := "IN_PROGRESS", is_active := true }
      [{ id := 1, raffle_id := 0, ticket_count := 2 }] [] 5 1 =
      .error .notEnoughTickets :=
  (C3_no_oversell
    { id := 0, total_tickets := 2, ticket_price := 10, currency := "USD",
      status := "IN_PROGRESS", is_active := true }
    [{ id := 1, raffle_id := 0, ticket_count := 2 }] [] 5 1 (by decide)).1
    rfl rfl (by decide)

theorem find_ticket_unique {tickets : List Ticket} {t : Ticket} {rid n : Nat}
    (hmem : t ∈ tickets)
    (hu : (tickets.map (fun x => (x.raffle_id, x.ticket_number))).Nodup)
    (hr : t.raffle_id = rid) (hn : t.ticket_number = n) :
    tickets.find? (fun x => x.raffle_id == rid && x.ticket_number == n) = some t := by
  induction tickets with
  | nil => cases hmem
  | cons hd tl ih =>
    simp only [List.map_cons, List.nodup_cons] at hu
    by_cases hhd : (hd.raffle_id == rid && hd.ticket_number == n) = true
    · simp only [List.find?_cons, hhd]
      rcases List.mem_cons.mp hmem with rfl | htl
      · rfl
      · exfalso
        apply hu.1
        simp only [Bool.and_eq_true, beq_iff_eq] at hhd
        rw [List.mem_map]
        exact ⟨t, htl, by simp [hr, hn, hhd.1, hhd.2]⟩
    · rw [Bool.not_eq_true] at hhd
      simp only [List.find?_cons, hhd]
      rcases List.mem_cons.mp hmem with rfl | htl
      · exact absurd (show (t.raffle_id == rid && t.ticket_number == n) = true by
          simp [hr, hn]) (by simp [hhd])
      · exact ih htl hu.2

/-- Claim C4: on a SCHEDULED draw whose prize has no winner, a winning
number matching no ticket of the prize's raffle makes
`process_draw_result` leave the prize row untouched (winner fields
still unset), save the draw as ROLLED_OVER, and create exactly one new
SCHEDULED draw for the same prize dated one day after the original. -/
theorem C4_draw_rollover (tickets : List Ticket) (draw : Draw) (prize : Prize)
    (winning_number : Nat)
    (hsched : draw.status = "SCHEDULED")
    (hwin : prize.winner_participation = none)
    (hnotix : ∀ t ∈ tickets,
      ¬(t.raffle_id = prize.raffle_id ∧ t.ticket_number = winning_number)) :
    process_draw_result tickets draw prize winning_number =
      .ok
        { prize := prize
          draw :=
            { draw with
              winning_number := some winning_number
              status := "ROLLED_OVER" }
          new_draw := some
            { prize_id := prize.id
              lottery_name := draw.lottery_name
              draw_time := draw.draw_time + oneDay
              winning_number := none
              status := "SCHEDULED" } } := by
  have hfind : tickets.find? (fun x =>
      x.raffle_id == prize.raffle_id && x.ticket_number == winning_number) = none := by
    rw [List.find?_eq_none]
    intro x hx
    have := hnotix x hx
    simpa using this
  simp [process_draw_result, hsched, hwin, hfind]

/-- Witness for C4 at concrete inputs: number 5 matches no ticket, the
draw rolls over and a next-day SCHEDULED draw is created. -/
theorem C4_witness :
    process_draw_result [] drawEx prizeEx 5 = .ok rolloverOutcomeEx := by
  have h := C4_draw_rollover [] drawEx prizeEx 5 rfl rfl (by simp)
  rw [h]
  rfl

/-- Claim C5: on a SCHEDULED draw whose prize has no winner, a winning
number matching an existing ticket of the prize's raffle makes
`process_draw_result` assign the prize to that ticket's participation,
record the winning number on the prize and the draw, and save the draw
as COMPLETED; every later call on the completed draw and assigned prize
fails with `DrawProcessingError` (the transaction rolls back, changing
nothing). -/
theorem C5_draw_completion (tickets : List Ticket) (draw : Draw) (prize : Prize)
    (winning_number : Nat) (t : Ticket)
    (hsched : draw.status = "SCHEDULED")
    (hwin : prize.winner_participation = none)
    (ht : t ∈ tickets)
    (hr : t.raffle_id = prize.raffle_id)
    (hn : t.ticket_number = winning_number)
    (hu : (tickets.map (fun x => (x.raffle_id, x.ticket_number))).Nodup) :
    process_draw_result tickets draw prize winning_number =
      .ok
        { prize :=
            { prize with
              winner_participation := some t.participation_id
              winner_ticket_number := some winning_number }
          draw :=
            { draw with
              winning_number := some winning_number
              status := "COMPLETED" }
          new_draw := none } ∧
    (∀ tickets2 wn2,
      process_draw_result tickets2
        { draw with
          winning_number := some winning_number
          status := "COMPLETED" }
        { prize with
          winner_participation := some t.participation_id
          winner_ticket_number := some winning_number }
        wn2 = .error .drawProcessingError) := by
  constructor
  · have hfind := find_ticket_unique ht hu hr hn
    simp [process_draw_result, hsched, hwin, hfind]
  · intro tickets2 wn2
    simp [process_draw_result]

/-- Witness for C5 at concrete inputs: ticket number 2 belongs to
participation 3, which wins the prize. -/
theorem C5_witness :
    process_draw_result [ticketEx] drawEx prizeEx 2 =
      .ok
        { prize :=
            { prizeEx with
              winner_participation := some ticketEx.participation_id
              winner_ticket_number := some 2 }
          draw :=
            { drawEx with
              winning_number := some 2
              status := "COMPLETED" }
          new_draw := none } :=
  (C5_draw_completion [ticketEx] drawEx prizeEx 2 ticketEx rfl rfl
    (by simp) rfl rfl (by simp)).1

/-- Counterexample to claim C6: the source assigns
`draw.winning_number = winning_number` before branching and the
rollover path's `save()` persists every field, so a draw that became
ROLLED_OVER does carry the winning number (here 5). -/
theorem C6_counterexample :
    process_draw_result [] drawEx prizeEx 5 = .ok rolloverOutcomeEx ∧
    rolloverOutcomeEx.draw.status = "ROLLED_OVER" ∧
    rolloverOutcomeEx.draw.winning_number ≠ none :=
  ⟨rfl, rfl, by simp [rolloverOutcomeEx, drawEx]⟩

/-- Claim C6 (amended): the winning number is recorded on every draw
that `process_draw_result` saves, on the COMPLETED path and on the
ROLLED_OVER path alike; only the newly created SCHEDULED draw carries
no winning number. -/
theorem C6_winning_number_recorded (tickets : List Ticket) (draw : Draw)
    (prize : Prize) (winning_number : Nat) (out : DrawOutcome)
    (hok : process_draw_result tickets draw prize winning_number = .ok out) :
    out.draw.winning_number = some winning_number ∧
    (out.draw.status = "COMPLETED" ∨ out.draw.status = "ROLLED_OVER") ∧
    (∀ nd, out.new_draw = some nd →
      nd.winning_number = none ∧ nd.status = "SCHEDULED") := by
  rw [process_draw_result] at hok
  by_cases h1 : (draw.status != "SCHEDULED") = true
  · rw [if_pos h1] at hok
    exact absurd hok (by simp)
  · rw [if_neg h1] at hok
    by_cases h2 : prize.winner_participation.isSome = true
    · rw [if_pos h2] at hok
      exact absurd hok (by simp)
    · rw [if_neg h2] at hok
      cases hfind : tickets.find? (fun x =>
          x.raffle_id == prize.raffle_id && x.ticket_number == winning_number) with
      | some w =>
        rw [hfind] at hok
        simp only [Except.ok.injEq] at hok
        subst hok
        simp
      | none =>
        rw [hfind] at hok
        simp only [Except.ok.injEq] at hok
        subst hok
        simp

/-- Witness for the amended C6 at concrete inputs: the rolled-over draw
carries winning number 5 and the freshly scheduled draw carries none. -/
theorem C6_witness :
    rolloverOutcomeEx.draw.winning_number = some 5 ∧
    (rolloverOutcomeEx.draw.status = "COMPLETED" ∨
      rolloverOutcomeEx.draw.status = "ROLLED_OVER") :=
  ⟨(C6_winning_number_recorded [] drawEx prizeEx 5 rolloverOutcomeEx rfl).1,
   (C6_winning_number_recorded [] drawEx prizeEx 5 rolloverOutcomeEx rfl).2.1⟩

/-- Claim C8: `revoke_prize_assignment` fails with `RevokePrizeError`
(changing nothing — the transaction rolls back) when the prize has no
winner, or is already delivered, or has no COMPLETED draw; otherwise it
clears the prize's winner fields, re-saves the most recent COMPLETED
draw of the prize as ROLLED_OVER, and creates exactly one new SCHEDULED
draw for the prize one day from now. -/
theorem C8_revoke_prize (prize : Prize) (draws : List Draw) (now : Int) :
    ((prize.winner_participation = none ∨ prize.delivered_at ≠ none ∨
        ∀ d ∈ draws, ¬(d.prize_id = prize.id ∧ d.status = "COMPLETED")) →
      revoke_prize_assignment prize draws now = .error .revokePrizeError) ∧
    (prize.winner_participation ≠ none → prize.delivered_at = none →
      ∀ cd ∈ draws, cd.prize_id = prize.id → cd.status = "COMPLETED" →
      ∃ best,
        best ∈ draws ∧ best.prize_id = prize.id ∧ best.status = "COMPLETED" ∧
        (∀ d ∈ draws, d.prize_id = prize.id → d.status = "COMPLETED" →
          d.draw_time ≤ best.draw_time) ∧
        revoke_prize_assignment prize draws now =
          .ok
            { prize :=
                { prize with
                  winner_participation := none
                  winner_ticket_number := none }
              rolled_draw := { best with status := "ROLLED_OVER" }
              new_draw :=
                { prize_id := prize.id
                  lottery_name := best.lottery_name
                  draw_time := now + oneDay
                  winning_number := none
                  status := "SCHEDULED" } }) := by
  constructor
  · intro hfail
    by_cases hwin : prize.winner_participation.isNone = true
    · simp [revoke_prize_assignment, hwin]
    · rw [revoke_prize_assignment, if_neg hwin]
      by_cases hdel : prize.is_delivered = true
      · rw [if_pos hdel]
      · rw [if_neg hdel]
        rcases hfail with hfail | hfail | hfail
        · exact absurd (by simp [hfail] : prize.winner_participation.isNone = true) hwin
        · exact absurd (by
            simp only [Prize.is_delivered, Option.isSome_iff_ne_none]
            exact hfail) hdel
        · have hnil : draws.filter
              (fun d => d.prize_id == prize.id && d.status == "COMPLETED") = [] := by
            rw [List.filter_eq_nil_iff]
            intro d hd
            have := hfail d hd
            simpa using this
          rw [hnil]
          rfl
  · intro hwin hdel cd hcd hcdp hcds
    have h1 : prize.winner_participation.isNone = false := by
      simpa [Option.isNone_eq_false_iff, Option.isSome_iff_ne_none] using hwin
    have h2 : prize.is_delivered = false := by
      simp [Prize.is_delivered, hdel]
    have hmemf : cd ∈ draws.filter
        (fun d => d.prize_id == prize.id && d.status == "COMPLETED") := by
      rw [List.mem_filter]
      exact ⟨hcd, by simp [hcdp, hcds]⟩
    cases hargl : (draws.filter
        (fun d => d.prize_id == prize.id && d.status == "COMPLETED")).argmax
        (fun d => d.draw_time) with
    | none =>
      exact absurd (List.argmax_eq_none.mp hargl) (List.ne_nil_of_mem hmemf)
    | some best =>
      have hbestopt : best ∈ (draws.filter
          (fun d => d.prize_id == prize.id && d.status == "COMPLETED")).argmax
          (fun d => d.draw_time) := by
        rw [hargl]
        rfl
      have hbestf := List.argmax_mem hbestopt
      rw [List.mem_filter] at hbestf
      have hbestp : best.prize_id = prize.id ∧ best.status = "COMPLETED" := by
        have := hbestf.2
        simpa using this
      refine ⟨best, hbestf.1, hbestp.1, hbestp.2, ?_, ?_⟩
      · intro d hd hdp hds
        have hdf : d ∈ draws.filter
            (fun x => x.prize_id == prize.id && x.status == "COMPLETED") := by
          rw [List.mem_filter]
          exact ⟨hd, by simp [hdp, hds]⟩
        exact List.le_of_mem_argmax hdf hbestopt
      · rw [revoke_prize_assignment, if_neg (by simp [h1]), if_neg (by simp [h2]), hargl]

/-- Witness for C8 at concrete inputs: a prize won via a COMPLETED draw
and not yet delivered is revoked, the draw rolled over and a new draw
scheduled one day out. -/
theorem C8_witness :
    revoke_prize_assignment
      { id := 0, raffle_id := 0, winner_participation := some 3,
        winner_ticket_number := some 2, delivered_at := none }
      [{ prize_id := 0, lottery_name := "L", draw_time := 0,
         winning_number := some 2, status := "COMPLETED" }] 10 =
      .ok
        { prize := prizeEx
          rolled_draw :=
            { prize_id := 0
              lottery_name := "L"
              draw_time := 0
              winning_number := some 2
              status := "ROLLED_OVER" }
          new_draw :=
            { prize_id := 0
              lottery_name := "L"
              draw_time := 10 + oneDay
              winning_number := none
              status := "SCHEDULED" } } := by
  obtain ⟨best, hmem, -, -, -, hok⟩ :=
    (C8_revoke_prize
      { id := 0, raffle_id := 0, winner_participation := some 3,
        winner_ticket_number := some 2, delivered_at := none }
      [{ prize_id := 0, lottery_name := "L", draw_time := 0,
         winning_number := some 2, status := "COMPLETED" }] 10).2
      (by simp) rfl
      { prize_id := 0, lottery_name := "L", draw_time := 0,
        winning_number := some 2, status := "COMPLETED" }
      (by simp) rfl rfl
  have hbest : best =
      { prize_id := 0, lottery_name := "L", draw_time := 0,
        winning_number := some 2, status := "COMPLETED" } := by
    simpa using hmem
  rw [hbest] at hok
  rw [hok]
  rfl

/-- Claim C7: for a payment method accepted by the raffle,
`calculate_payment_amount` returns the unrounded base amount
`ticket_price * ticket_count` with no rate when the currencies agree;
otherwise it uses the most recent exchange rate dated on or before the
payment date (failing with `ExchangeRateUnavailableError` when none
exists), rounding half-up to two decimals the product for a USD raffle
paid in VEF and the quotient for a VEF raffle paid in USD, and failing
with `PaymentCalculationError` on any other cross-currency pair; the
spec's two numeric examples evaluate as stated. -/
theorem C7_calculate_payment_amount (raffle : Raffle) (ticket_count : Nat)
    (method_currency : String) (rates : List ExchangeRate) (payment_date : Int) :
    (raffle.currency = method_currency →
      calculate_payment_amount raffle ticket_count method_currency true rates payment_date =
        .ok (raffle.ticket_price * (ticket_count : Rat), method_currency, none)) ∧
    (raffle.currency ≠ method_currency → (∀ r ∈ rates, ¬ r.date ≤ payment_date) →
      calculate_payment_amount raffle ticket_count method_currency true rates payment_date =
        .error .exchangeRateUnavailable) ∧
    (∀ rate_obj, get_exchange_rate_for_date rates payment_date = some rate_obj →
      rate_obj ∈ rates ∧ rate_obj.date ≤ payment_date ∧
      (∀ r ∈ rates, r.date ≤ payment_date → r.date ≤ rate_obj.date) ∧
      (raffle.currency = "USD" → method_currency = "VEF" →
        calculate_payment_amount raffle ticket_count method_currency true rates payment_date =
          .ok (roundHalfUp2 (raffle.ticket_price * (ticket_count : Rat) * rate_obj.rate),
            method_currency, some rate_obj.rate)) ∧
      (raffle.currency = "VEF" → method_currency = "USD" →
        calculate_payment_amount raffle ticket_count method_currency true rates payment_date =
          .ok (roundHalfUp2 (raffle.ticket_price * (ticket_count : Rat) / rate_obj.rate),
            method_currency, some rate_obj.rate)) ∧
      (raffle.currency ≠ method_currency →
        ¬(raffle.currency = "USD" ∧ method_currency = "VEF") →
        ¬(raffle.currency = "VEF" ∧ method_currency = "USD") →
        calculate_payment_amount raffle ticket_count method_currency true rates payment_date =
          .error .paymentCalculation)) ∧
    (calculate_payment_amount
        { id := 0, total_tickets := 100, ticket_price := 10, currency := "USD",
          status := "IN_PROGRESS", is_active := true }
        3 "VEF" true [{ date := 0, rate := 40 }] 0 =
      .ok (1200, "VEF", some 40)) ∧
    (calculate_payment_amount
        { id := 0, total_tickets := 100, ticket_price := 400, currency := "VEF",
          status := "IN_PROGRESS", is_active := true }
        2 "USD" true [{ date := 0, rate := 40 }] 0 =
      .ok (20, "USD", some 40)) := by
  refine ⟨?_, ?_, ?_, ?_, ?_⟩
  · intro h
    simp [calculate_payment_amount, h]
  · intro hne hno
    have hnil : rates.filter (fun r => decide (r.date ≤ payment_date)) = [] := by
      rw [List.filter_eq_nil_iff]
      intro r hr
      simpa using hno r hr
    have hbeq : (raffle.currency == method_currency) = false :=
      beq_eq_false_iff_ne.mpr hne
    simp [calculate_payment_amount, get_exchange_rate_for_date, hnil, hbeq]
  · intro rate_obj hget
    have hopt : rate_obj ∈ (rates.filter
        (fun r => decide (r.date ≤ payment_date))).argmax (fun r => r.date) := by
      rw [← get_exchange_rate_for_date, hget]
      rfl
    have hmemf := List.argmax_mem hopt
    rw [List.mem_filter] at hmemf
    refine ⟨hmemf.1, by simpa using hmemf.2, ?_, ?_, ?_, ?_⟩
    · intro r hr hrle
      have hrf : r ∈ rates.filter (fun x => decide (x.date ≤ payment_date)) := by
        rw [List.mem_filter]
        exact ⟨hr, by simpa using hrle⟩
      exact List.le_of_mem_argmax hrf hopt
    · intro hU hV
      simp [calculate_payment_amount, hU, hV, hget]
    · intro hV hU
      simp [calculate_payment_amount, hU, hV, hget]
    · intro hne h1 h2
      have hbeq : (raffle.currency == method_currency) = false :=
        beq_eq_false_iff_ne.mpr hne
      simp only [calculate_payment_amount, hget, hbeq,
        Bool.not_true, Bool.false_eq_true, if_false]
      split_ifs with hA hB
      · rw [Bool.and_eq_true, beq_iff_eq, beq_iff_eq] at hA
        exact absurd hA h1
      · rw [Bool.and_eq_true, beq_iff_eq, beq_iff_eq] at hB
        exact absurd hB h2
      · rfl
  · norm_num [calculate_payment_amount, get_exchange_rate_for_date, roundHalfUp2]
    decide
  · norm_num [calculate_payment_amount, get_exchange_rate_for_date, roundHalfUp2]
    rw [if_neg (by decide), if_neg (by decide)]

/-- Witness for C7 at a concrete input: same-currency payments need no
conversion and return the raw base amount with no rate. -/
theorem C7_witness :
    calculate_payment_amount
      { id := 0, total_tickets := 100, ticket_price := 10, currency := "USD",
        status := "IN_PROGRESS", is_active := true }
      3 "USD" true [] 0 = .ok ((10 : Rat) * ((3 : Nat) : Rat), "USD", none) :=
  (C7_calculate_payment_amount
    { id := 0, total_tickets := 100, ticket_price := 10, currency := "USD",
      status := "IN_PROGRESS", is_active := true }
    3 "USD" [] 0).1 rfl

/-- Claim C9: the expiration reaper never raises (it is a total
function: the source catches `DoesNotExist` explicitly and everything
else with a catch-all handler): when a payment exists for the id it
deletes nothing, when none exists it deletes exactly the participation
rows with that primary key, and when the participation is already gone
it completes leaving the table unchanged. -/
theorem C9_reaper_safe (parts : List Participation) (payments : List Payment)
    (participation_id : Nat) :
    (payments.any (fun pay => pay.participation_id == participation_id) = true →
      cleanup_expired_participation parts payments participation_id = parts) ∧
    (payments.any (fun pay => pay.participation_id == participation_id) = false →
      cleanup_expired_participation parts payments participation_id =
        parts.filter (fun p => !(p.id == participation_id))) ∧
    ((∀ p ∈ parts, p.id ≠ participation_id) →
      cleanup_expired_participation parts payments participation_id = parts) := by
  refine ⟨?_, ?_, ?_⟩
  · intro h
    simp [cleanup_expired_participation, h]
  · intro h
    rw [cleanup_expired_participation, if_neg (by simp [h])]
    cases hfind : parts.find? (fun p => p.id == participation_id) with
    | some p => rfl
    | none =>
      rw [List.find?_eq_none] at hfind
      have : parts.filter (fun p => !(p.id == participation_id)) = parts := by
        rw [List.filter_eq_self]
        intro p hp
        simpa using hfind p hp
      rw [this]
  · intro h
    by_cases hpay : payments.any (fun pay => pay.participation_id == participation_id) = true
    · simp [cleanup_expired_participation, hpay]
    · rw [Bool.not_eq_true] at hpay
      rw [cleanup_expired_participation, if_neg (by simp [hpay])]
      have hfind : parts.find? (fun p => p.id == participation_id) = none := by
        rw [List.find?_eq_none]
        intro p hp
        simpa using h p hp
      rw [hfind]

/-- Witness for C9 at concrete inputs: participation 1 has a payment,
so the reaper deletes nothing. -/
theorem C9_witness :
    cleanup_expired_participation
      [{ id := 1, raffle_id := 0, ticket_count := 2 }]
      [{ participation_id := 1, status := "PENDING", verified_by := none,
         verified_at := none }]
      1 = [{ id := 1, raffle_id := 0, ticket_count := 2 }] :=
  (C9_reaper_safe
    [{ id := 1, raffle_id := 0, ticket_count := 2 }]
    [{ participation_id := 1, status := "PENDING", verified_by := none,
       verified_at := none }]
    1).1 (by decide)
